import Mathlib

/-!
Shallow embedding of the narration-facemon repository
(src/app.py, src/monitor.py, src/enroll.py).

Faceprints (face-embedding vectors) are abstracted to integer points
together with an explicit integer-valued distance function and tolerance
(the programs treat both as opaque inputs of the comparison call); the library call
`face_recognition.compare_faces` is the pointwise tolerance test on that
distance, exactly as all three programs use it.  Per-frame decision logic,
the monitor-mode playback state machine, the GUI enrollment state machine,
and the three store loaders are translated branch for branch from the
source files; effectful operations (file system, mixer) are made explicit
in small state records.
-/

/-- A faceprint: one face-embedding vector, abstracted to an integer point.
The geometry enters the programs only through a distance plus tolerance
test, both kept as explicit parameters. -/
abbrev Faceprint := ℤ

/-- Contents of the persisted faceprint store: an association list from
identity name to that identity's stored encodings, mirroring the pickled
dict used by all three programs. -/
abbrev Store := List (String × List Faceprint)

/-- Embedding of face_recognition.compare_faces: one boolean per known
encoding, true iff the distance from that known encoding to the candidate
is within the tolerance. -/
def compare_faces (dist : Faceprint → Faceprint → ℤ) (tol : ℤ)
    (known : List Faceprint) (enc : Faceprint) : List Bool :=
  known.map (fun k => decide (dist k enc ≤ tol))

/-- Whether the character list starts with the given pattern. -/
def startsWithChars : List Char → List Char → Bool
  | _, [] => true
  | [], _ :: _ => false
  | c :: cs, p :: ps => c == p && startsWithChars cs ps

/-- Whether the pattern occurs as a contiguous run inside the character
list: the semantics of the Python `in` test on strings. -/
def hasSubChars (p : List Char) : List Char → Bool
  | [] => startsWithChars [] p
  | c :: cs => startsWithChars (c :: cs) p || hasSubChars p cs

/-- Python substring test `pat in s`. -/
def strHasSub (s pat : String) : Bool := hasSubChars pat.toList s.toList

/-- Python str.lower, per character (the device names involved are
ASCII). -/
def pyLower (s : String) : String := String.mk (s.data.map Char.toLower)

/-- Whitespace recognised by Python str.strip for the names used here. -/
def isSpaceChar (c : Char) : Bool :=
  c == ' ' || c == '\t' || c == '\n' || c == '\r'

/-- Python str.strip: drop whitespace from both ends. -/
def pyStrip (s : String) : String :=
  String.mk (((s.data.dropWhile isSpaceChar).reverse.dropWhile
    isSpaceChar).reverse)

/-- The substring that the two monitor loops look for in the active audio
output device name. -/
def strSpeaker : String := "speaker"

/-- On-disk state of a pickled store file, as the loaders can observe it:
absent, present but raising EOFError when unpickled, present but raising
some other exception when unpickled, or valid with the given contents. -/
inductive DBFile
  | absent
  | corruptEOF
  | corruptOther
  | valid (db : Store)
  deriving DecidableEq

/-- How a Python-level failure escapes to the top of one of the scripts:
an uncaught exception, or an explicit exit() call. -/
inductive PyErr
  | uncaughtError
  | exitCall
  deriving DecidableEq

namespace App

/-- Fallback device name from src/app.py get_audio_device_name. -/
def strSpeakerError : String := "speaker (error)"

/-- src/app.py load_database: any exception while opening or unpickling
the store file is swallowed (bare except) and yields the empty store; an
absent file also yields the empty store. -/
def load_database : DBFile → Store
  | DBFile.absent => []
  | DBFile.corruptEOF => []
  | DBFile.corruptOther => []
  | DBFile.valid db => db

/-- src/app.py get_audio_device_name: the queried default output device
name lowercased; on any failure the literal "speaker (error)", so an
unreadable device is treated as a loudspeaker. -/
def get_audio_device_name : Option String → String
  | some n => pyLower n
  | none => strSpeakerError

/-- Per-frame status outcomes of app.py monitor mode (the status strings
"No Face", "Multiple Faces", "SPEAKERS DETECTED", "Unauthorized",
"Secure Playback"), which play the roles of the spec's NO_FACE / SCANNING,
MULTIPLE_FACES, DEVICE_UNSAFE, DENIED and GRANTED verdicts.  The extra
constructor noPackage is the verdict the spec's taxonomy lists for a
missing package; the code below never produces it, which is what the
corresponding claim is about. -/
inductive AppVerdict
  | noFace
  | multipleFaces
  | speakersDetected
  | unauthorized
  | granted
  | noPackage
  deriving DecidableEq

/-- Static per-session inputs of app.py monitor mode: the distance metric
and tolerance, the encodings flattened out of the store at session start
(all_encodings), and the identity.jpg reference encoding (which monitor
mode's constructor leaves at None; kept as a field because the frame
handler reads it). -/
structure Cfg where
  dist : Faceprint → Faceprint → ℤ
  tol : ℤ
  allEncodings : List Faceprint
  referenceEncoding : Option Faceprint

/-- The valid_user computation of app.py monitor mode: first the store
check (guarded by the Python truthiness test on all_encodings), then the
identity.jpg fallback. -/
def monitorAuthenticate (cfg : Cfg) (enc0 : Faceprint) : Bool :=
  let valid1 :=
    if cfg.allEncodings.isEmpty then false
    else (compare_faces cfg.dist cfg.tol cfg.allEncodings enc0).contains true
  if valid1 then true
  else
    match cfg.referenceEncoding with
    | some r => (compare_faces cfg.dist cfg.tol [r] enc0).headD false
    | none => false

/-- Branch order of the app.py monitor-mode frame handler: no face,
multiple faces, speaker device, then authentication.  The device name is
the (already lowercased) result of get_audio_device_name. -/
def monitorVerdict (cfg : Cfg) (faces : List Faceprint) (devName : String) :
    AppVerdict :=
  let is_speaker := strHasSub devName strSpeaker
  if faces.length = 0 then AppVerdict.noFace
  else if 1 < faces.length then AppVerdict.multipleFaces
  else if is_speaker then AppVerdict.speakersDetected
  else if monitorAuthenticate cfg (faces.headD 0) then AppVerdict.granted
  else AppVerdict.unauthorized

/-- One camera frame of a monitor session together with the environment
that frame would observe: the detected faceprints, the raw device name
(None when the device query fails), whether master.key is findable,
whether the Fernet decryption of the blob would succeed, and the fresh
name tempfile.NamedTemporaryFile would hand out for this attempt. -/
structure AppFrame where
  faces : List Faceprint
  devRaw : Option String
  keyPresent : Bool
  decryptOk : Bool
  tmpPath : Nat
  deriving DecidableEq

/-- Mutable state of a VideoWorker monitor session: the one-shot
current_key_loaded flag, the recorded decrypted_temp_file path, the
audio_paused flag, whether the mixer holds the looping track, the set of
paths existing on temp storage, and a ghost counter of how many times the
body of decrypt_and_play ran past its current_key_loaded guard. -/
structure AppState where
  current_key_loaded : Bool
  decrypted_temp_file : Option Nat
  audio_paused : Bool
  music_playing : Bool
  fs : List Nat
  decrypt_calls : Nat
  deriving DecidableEq

/-- src/app.py VideoWorker.decrypt_and_play: returns immediately when the
key is already loaded; otherwise reports failure when master.key is
missing, and on a successful Fernet decryption writes the plaintext to a
fresh temp file, records its path, starts the looping playback in the
paused sub-state and latches current_key_loaded.  The canonical failure
(bad key / corrupt blob) raises inside fernet.decrypt, before the temp
file is created. -/
def decrypt_and_play (fr : AppFrame) (st : AppState) : Bool × AppState :=
  if st.current_key_loaded then (true, st)
  else
    let st1 : AppState := { st with decrypt_calls := st.decrypt_calls + 1 }
    if fr.keyPresent then
      if fr.decryptOk then
        (true, { st1 with
          decrypted_temp_file := some fr.tmpPath,
          fs := fr.tmpPath :: st1.fs,
          music_playing := true,
          current_key_loaded := true })
      else (false, st1)
    else (false, st1)

/-- One iteration of the monitor-mode audio logic of VideoWorker.run:
when the frame's verdict is the granted one, attempt the lazy decryption
if still needed, and unpause on success while paused; on every other
verdict, pause if currently unpaused. -/
def appFrameStep (cfg : Cfg) (fr : AppFrame) (st : AppState) : AppState :=
  if monitorVerdict cfg fr.faces (get_audio_device_name fr.devRaw)
      = AppVerdict.granted then
    let pr := if st.current_key_loaded then (true, st)
              else decrypt_and_play fr st
    if pr.1 && pr.2.audio_paused then { pr.2 with audio_paused := false }
    else pr.2
  else if st.audio_paused then st
  else { st with audio_paused := true }

/-- State of a monitor VideoWorker right after construction: nothing
decrypted, no temp file, audio flagged paused, given pre-existing temp
storage contents. -/
def appMonitorInit (fs0 : List Nat) : AppState :=
  { current_key_loaded := false,
    decrypted_temp_file := none,
    audio_paused := true,
    music_playing := false,
    fs := fs0,
    decrypt_calls := 0 }

/-- The frames processed by one monitor session, in arrival order. -/
def appProcessFrames (cfg : Cfg) (frames : List AppFrame) (st : AppState) :
    AppState :=
  frames.foldl (fun s f => appFrameStep cfg f s) st

/-- End of VideoWorker.run after the frame loop exits (both on a stop
request and on a frame-read failure the loop falls through here): the
mixer is stopped and cleanup() removes the decrypted temp file when its
recorded path still exists. -/
def appSessionEnd (st : AppState) : AppState :=
  let st1 : AppState := { st with music_playing := false }
  match st1.decrypted_temp_file with
  | some p =>
      if st1.fs.contains p then { st1 with fs := st1.fs.erase p } else st1
  | none => st1

/-- A whole monitor session: construction, the processed frames, then the
unconditional terminal cleanup. -/
def appMonitorSession (cfg : Cfg) (frames : List AppFrame)
    (fs0 : List Nat) : AppState :=
  appSessionEnd (appProcessFrames cfg frames (appMonitorInit fs0))

/-- Whether a frame's verdict is the granted one. -/
def isGrantedFrame (cfg : Cfg) (fr : AppFrame) : Bool :=
  decide (monitorVerdict cfg fr.faces (get_audio_device_name fr.devRaw)
    = AppVerdict.granted)

/-- Status outcomes of app.py lock mode. -/
inductive LockStatus
  | identityMissing
  | scanning
  | identityConfirmed
  | accessDenied
  deriving DecidableEq

/-- One frame of app.py lock mode: missing reference reports an error;
no face keeps scanning; otherwise only the first detected face is
compared with the reference (live_encs[0]) and the boolean is whether the
unlock signal fires. -/
def lockFrame (dist : Faceprint → Faceprint → ℤ) (tol : ℤ)
    (refEnc : Option Faceprint) (faces : List Faceprint) :
    LockStatus × Bool :=
  match refEnc with
  | none => (LockStatus.identityMissing, false)
  | some r =>
    match faces with
    | [] => (LockStatus.scanning, false)
    | f0 :: _ =>
      if (compare_faces dist tol [r] f0).headD false then
        (LockStatus.identityConfirmed, true)
      else (LockStatus.accessDenied, false)

/-- Python dict assignment db[name] = encs on the association list. -/
def dbInsert (db : Store) (name : String) (encs : List Faceprint) :
    Store :=
  db.filter (fun kv => kv.1 != name) ++ [(name, encs)]

/-- Python dict lookup db.get(name). -/
def dbLookup (db : Store) (name : String) : Option (List Faceprint) :=
  (db.find? (fun kv => kv.1 == name)).map (fun kv => kv.2)

/-- GUI state of the AudioGuardApp enrollment flow: the enroll_step
counter, the temp_encodings accumulator, the committed name, the frame
last delivered by face_detected_signal (box count together with the
encoding its first box yields), whether the enroll button is still wired
to handle_enroll_click (the commit rewires it to the page switch), and
the contents of the store file. -/
structure GuiState where
  enroll_step : Int
  temp_encodings : List Faceprint
  enroll_name : String
  current_frame : Option (Nat × Faceprint)
  btn_connected_enroll : Bool
  dbFile : Store
  deriving DecidableEq

/-- src/app.py AudioGuardApp.handle_enroll_click.  At step -1 a nonempty
stripped name arms the capture phase; at steps 0..2 a stored frame with
exactly one box appends its encoding to temp_encodings and advances, and
reaching step 3 loads the store file, overwrites the entry of the given
name with the whole temp_encodings list, saves the store before
returning, and rewires the button. -/
def handle_enroll_click (nameText : String) (st : GuiState) : GuiState :=
  if st.enroll_step = -1 then
    let name := pyStrip nameText
    if name.isEmpty then st
    else { st with enroll_name := name, enroll_step := 0 }
  else if st.enroll_step < 3 then
    match st.current_frame with
    | none => st
    | some bf =>
      if bf.1 != 1 then st
      else
        let st1 : GuiState := { st with
          temp_encodings := st.temp_encodings ++ [bf.2],
          enroll_step := st.enroll_step + 1 }
        if st1.enroll_step = 3 then
          { st1 with
            dbFile := dbInsert st1.dbFile st1.enroll_name st1.temp_encodings,
            btn_connected_enroll := false }
        else st1
  else st

/-- src/app.py AudioGuardApp.start_enroll_mode: resets enroll_step to -1
and the name input, but neither temp_encodings nor current_frame nor the
button wiring. -/
def start_enroll_mode (st : GuiState) : GuiState :=
  { st with enroll_step := -1 }

/-- AudioGuardApp.__init__ as far as enrollment state is concerned, over
the given store-file contents. -/
def guiInit (db0 : Store) : GuiState :=
  { enroll_step := 0,
    temp_encodings := [],
    enroll_name := "",
    current_frame := none,
    btn_connected_enroll := true,
    dbFile := db0 }

/-- The user-interface events that drive the enrollment flow: entering
the registration page (switch_page(2) followed by start_enroll_mode), a
fresh single-face frame delivered by the worker, and a click on the
enroll button carrying the current text of the name field. -/
inductive UIEvent
  | enterEnrollMode
  | setFrame (boxes : Nat) (enc : Faceprint)
  | click (nameText : String)
  deriving DecidableEq

/-- One GUI event.  A click reaches handle_enroll_click only while the
button is still wired to it; after a commit the button is wired to the
page switch instead, which leaves the enrollment state unchanged. -/
def guiStep (st : GuiState) : UIEvent → GuiState
  | UIEvent.enterEnrollMode => start_enroll_mode st
  | UIEvent.setFrame b e => { st with current_frame := some (b, e) }
  | UIEvent.click nameText =>
      if st.btn_connected_enroll then handle_enroll_click nameText st else st

/-- A run of the app from construction through a sequence of GUI
events. -/
def guiRun (db0 : Store) (evs : List UIEvent) : GuiState :=
  evs.foldl guiStep (guiInit db0)

end App

namespace MonitorPy

/-- Fallback device name from src/monitor.py get_current_audio_device. -/
def strSpeakerErrorDetection : String := "speaker (error detection)"

/-- src/monitor.py get_current_audio_device: the queried default output
device name lowercased; on failure the unsafe default. -/
def get_current_audio_device : Option String → String
  | some n => pyLower n
  | none => strSpeakerErrorDetection

/-- Static per-run inputs of monitor.py: distance metric, tolerance and
the flattened all_known_encodings list built at startup. -/
structure MonCfg where
  dist : Faceprint → Faceprint → ℤ
  tol : ℤ
  all_known_encodings : List Faceprint

/-- Per-frame status outcomes of the monitor.py loop (the status strings
for no face, multiple faces, headphones not detected, authorized user and
unauthorized person). -/
inductive MonVerdict
  | noFaceWarn
  | multipleFacesWarn
  | headphonesWarn
  | authorizedUser
  | unauthorizedPerson
  deriving DecidableEq

/-- Branch order of the monitor.py logic gates: no face, multiple faces,
speaker device, then the store comparison. -/
def monitorPyVerdict (cfg : MonCfg) (faces : List Faceprint)
    (devName : String) : MonVerdict :=
  let is_on_speaker := strHasSub devName strSpeaker
  if faces.length = 0 then MonVerdict.noFaceWarn
  else if 1 < faces.length then MonVerdict.multipleFacesWarn
  else if is_on_speaker then MonVerdict.headphonesWarn
  else if (compare_faces cfg.dist cfg.tol cfg.all_known_encodings
      (faces.headD 0)).contains true then MonVerdict.authorizedUser
  else MonVerdict.unauthorizedPerson

/-- monitor.py sets should_play exactly on the authorized verdict. -/
def should_play : MonVerdict → Bool
  | MonVerdict.authorizedUser => true
  | _ => false

/-- Audio state of the monitor.py loop: pygame.mixer.music has been
started, and the audio_is_paused flag. -/
structure MonPyState where
  music_started : Bool
  audio_is_paused : Bool
  deriving DecidableEq

/-- State right before the first loop iteration: play() has been called
and audio_is_paused is False, so the narration is audible. -/
def monitorPyInit : MonPyState :=
  { music_started := true, audio_is_paused := false }

/-- One camera frame of monitor.py: detected faceprints and the raw
device name. -/
structure MonPyFrame where
  faces : List Faceprint
  devRaw : Option String
  deriving DecidableEq

/-- The audio-control tail of one monitor.py loop iteration. -/
def monitorPyStep (cfg : MonCfg) (fr : MonPyFrame) (st : MonPyState) :
    MonPyState :=
  let v := monitorPyVerdict cfg fr.faces (get_current_audio_device fr.devRaw)
  if should_play v then
    if st.audio_is_paused then { st with audio_is_paused := false } else st
  else
    if st.audio_is_paused then st else { st with audio_is_paused := true }

/-- A run of the monitor.py frame loop from its post-startup state. -/
def monitorPyRun (cfg : MonCfg) (frames : List MonPyFrame) : MonPyState :=
  frames.foldl (fun s f => monitorPyStep cfg f s) monitorPyInit

/-- monitor.py startup: missing or unloadable audio exits; then the store
is loaded with no exception handling at all, so an absent store file
prints an error and exits while a corrupt one raises out of the
process. -/
def monitorPyStartup (audioFileExists audioLoadOk : Bool)
    (dbFile : DBFile) : Except PyErr Store :=
  if audioFileExists then
    if audioLoadOk then
      match dbFile with
      | DBFile.valid db => Except.ok db
      | DBFile.absent => Except.error PyErr.exitCall
      | DBFile.corruptEOF => Except.error PyErr.uncaughtError
      | DBFile.corruptOther => Except.error PyErr.uncaughtError
    else Except.error PyErr.exitCall
  else Except.error PyErr.exitCall

end MonitorPy

namespace Enroll

/-- src/enroll.py load_database: an absent file yields the empty store,
and the except clause catches only EOFError, so any other unpickling
exception propagates out of the loader. -/
def load_database : DBFile → Except PyErr Store
  | DBFile.absent => Except.ok []
  | DBFile.corruptEOF => Except.ok []
  | DBFile.corruptOther => Except.error PyErr.uncaughtError
  | DBFile.valid db => Except.ok db

end Enroll

/-- An explicit distance function for concrete scenarios: absolute
difference of the integer points. -/
def distAbs : Faceprint → Faceprint → ℤ :=
  fun a b => if a ≤ b then b - a else a - b

/-- A concrete raw device name whose lowercase form contains
"speaker". -/
def devSpeakers : String := "MacBook Pro Speakers"

/-- A concrete raw device name whose lowercase form does not contain
"speaker". -/
def devHeadphones : String := "USB-C Headphones"

/-- Concrete monitor-mode session inputs: one enrolled encoding at 0,
tolerance 1, no identity.jpg reference. -/
def cfg0 : App.Cfg :=
  { dist := distAbs, tol := 1, allEncodings := [0],
    referenceEncoding := none }

/-- Concrete monitor-mode session inputs with an empty store and no
identity.jpg reference (tolerance 1). -/
def cfgEmpty : App.Cfg :=
  { dist := distAbs, tol := 1, allEncodings := [],
    referenceEncoding := none }

/-- Concrete monitor.py run inputs: one known encoding at 0, tolerance
1. -/
def mcfg0 : MonitorPy.MonCfg :=
  { dist := distAbs, tol := 1, all_known_encodings := [0] }

/-- A frame whose verdict under cfg0 is granted and on which a decryption
attempt would succeed, writing the given temp path. -/
def grantedFr (path : Nat) : App.AppFrame :=
  { faces := [0], devRaw := some devHeadphones, keyPresent := true,
    decryptOk := true, tmpPath := path }

/-- A frame whose verdict under cfg0 is granted but on which the Fernet
decryption would fail. -/
def failFr : App.AppFrame :=
  { faces := [0], devRaw := some devHeadphones, keyPresent := true,
    decryptOk := false, tmpPath := 1 }

/-- A frame whose verdict under cfg0 is the unauthorized (denied) one:
the single face at 10 matches nothing within tolerance 1. -/
def deniedFr : App.AppFrame :=
  { faces := [10], devRaw := some devHeadphones, keyPresent := true,
    decryptOk := true, tmpPath := 3 }

/-- The verdict sequence [GRANTED, GRANTED, DENIED, GRANTED] from the
spec's edge-triggering property, as concrete frames under cfg0. -/
def edgeSeq : List App.AppFrame :=
  [grantedFr 1, grantedFr 2, deniedFr, grantedFr 4]

/-- Name entered for the first, abandoned enrollment session. -/
def nameAlice : String := "Alice"

/-- Name entered for the second, completed enrollment session. -/
def nameBob : String := "Bob"

/-- Empty click text used once a session is armed (the name field is
disabled then and its text unused). -/
def emptyText : String := ""

/-- A concrete GUI event script within one app run: enter the
registration page, arm a session for Alice, capture one frame, abandon by
re-entering the registration page, then enroll Bob with three
captures. -/
def enrollScript : List App.UIEvent :=
  [ App.UIEvent.enterEnrollMode,
    App.UIEvent.click nameAlice,
    App.UIEvent.setFrame 1 1,
    App.UIEvent.click emptyText,
    App.UIEvent.enterEnrollMode,
    App.UIEvent.click nameBob,
    App.UIEvent.setFrame 1 10,
    App.UIEvent.click emptyText,
    App.UIEvent.setFrame 1 11,
    App.UIEvent.click emptyText,
    App.UIEvent.setFrame 1 12,
    App.UIEvent.click emptyText ]

/-- Invariant of a monitor session started over temp storage fs0: either
no decryption has happened (no temp file, storage unchanged) or exactly
one succeeded (its fresh path recorded and prepended to storage). -/
def SessionInv (fs0 : List Nat) (st : App.AppState) : Prop :=
  (st.current_key_loaded = false ∧ st.decrypted_temp_file = none ∧
    st.fs = fs0) ∨
  (∃ q, st.current_key_loaded = true ∧ st.decrypted_temp_file = some q ∧
    st.fs = q :: fs0 ∧ q ∉ fs0)

theorem appFrameStep_eqs (cfg : App.Cfg) (fr : App.AppFrame) (st : App.AppState) :
    (App.appFrameStep cfg fr st).audio_paused
        = (if App.isGrantedFrame cfg fr then
             (if st.current_key_loaded || (fr.keyPresent && fr.decryptOk) then false
              else st.audio_paused)
           else true) ∧
    (App.appFrameStep cfg fr st).decrypt_calls
        = st.decrypt_calls
          + (if App.isGrantedFrame cfg fr && !st.current_key_loaded then 1 else 0) ∧
    (App.appFrameStep cfg fr st).current_key_loaded
        = (st.current_key_loaded
           || (App.isGrantedFrame cfg fr && fr.keyPresent && fr.decryptOk)) ∧
    (App.appFrameStep cfg fr st).decrypted_temp_file
        = (if App.isGrantedFrame cfg fr && !st.current_key_loaded
              && fr.keyPresent && fr.decryptOk
           then some fr.tmpPath else st.decrypted_temp_file) ∧
    (App.appFrameStep cfg fr st).fs
        = (if App.isGrantedFrame cfg fr && !st.current_key_loaded
              && fr.keyPresent && fr.decryptOk
           then fr.tmpPath :: st.fs else st.fs) := by
  obtain ⟨faces, devRaw, kp, dok, tp⟩ := fr
  obtain ⟨k, t, a, m, fsl, c⟩ := st
  simp only [App.appFrameStep, App.decrypt_and_play, App.isGrantedFrame]
  by_cases hv : App.monitorVerdict cfg faces (App.get_audio_device_name devRaw)
      = App.AppVerdict.granted <;>
    cases k <;> cases a <;> cases kp <;> cases dok <;>
      simp [hv]

theorem sessionInv_step (cfg : App.Cfg) (fr : App.AppFrame) (st : App.AppState)
    (fs0 : List Nat) (hf : fr.tmpPath ∉ fs0) (h : SessionInv fs0 st) :
    SessionInv fs0 (App.appFrameStep cfg fr st) := by
  obtain ⟨e1, e2, e3, e4, e5⟩ := appFrameStep_eqs cfg fr st
  unfold SessionInv at h ⊢
  rcases h with ⟨hk, ht, hfs⟩ | ⟨q, hk, ht, hfs, hq⟩
  · by_cases hg : App.isGrantedFrame cfg fr = true
    · by_cases hkp : fr.keyPresent = true
      · by_cases hdo : fr.decryptOk = true
        · right; refine ⟨fr.tmpPath, ?_, ?_, ?_, hf⟩ <;> simp_all
        · left; refine ⟨?_, ?_, ?_⟩ <;> simp_all
      · left; refine ⟨?_, ?_, ?_⟩ <;> simp_all
    · left; refine ⟨?_, ?_, ?_⟩ <;> simp_all
  · right
    refine ⟨q, ?_, ?_, ?_, hq⟩ <;> simp_all

theorem sessionInv_process (cfg : App.Cfg) :
    ∀ (frames : List App.AppFrame) (st : App.AppState) (fs0 : List Nat),
      (∀ f ∈ frames, f.tmpPath ∉ fs0) → SessionInv fs0 st →
      SessionInv fs0 (App.appProcessFrames cfg frames st)
  | [], _, _, _, h => h
  | f :: fs, st, fs0, hf, h =>
    sessionInv_process cfg fs (App.appFrameStep cfg f st) fs0
      (fun g hg => hf g (List.mem_cons_of_mem f hg))
      (sessionInv_step cfg f st fs0 (hf f (List.mem_cons_self f fs)) h)

theorem sessionEnd_safe (fs0 : List Nat) (st : App.AppState) (p : Nat)
    (hinv : SessionInv fs0 st)
    (hp : (App.appSessionEnd st).decrypted_temp_file = some p) :
    p ∉ (App.appSessionEnd st).fs := by
  obtain ⟨k, t, a, m, fsl, c⟩ := st
  unfold SessionInv at hinv
  rcases hinv with ⟨hk, ht, hfs⟩ | ⟨q, hk, ht, hfs, hq⟩ <;>
    dsimp only at hk ht hfs <;> subst hk <;> subst ht <;> subst hfs
  · simp [App.appSessionEnd] at hp
  · simp [App.appSessionEnd] at hp ⊢
    subst hp
    exact hq

theorem processFrames_calls_loaded (cfg : App.Cfg) :
    ∀ (frames : List App.AppFrame) (st : App.AppState),
      st.current_key_loaded = true →
      (App.appProcessFrames cfg frames st).decrypt_calls = st.decrypt_calls
  | [], _, _ => rfl
  | f :: fs, st, h => by
    obtain ⟨e1, e2, e3, e4, e5⟩ := appFrameStep_eqs cfg f st
    have hk : (App.appFrameStep cfg f st).current_key_loaded = true := by
      rw [e3, h]; simp
    have hc : (App.appFrameStep cfg f st).decrypt_calls = st.decrypt_calls := by
      rw [e2, h]; simp
    have hrec := processFrames_calls_loaded cfg fs (App.appFrameStep cfg f st) hk
    calc (App.appProcessFrames cfg (f :: fs) st).decrypt_calls
        = (App.appProcessFrames cfg fs (App.appFrameStep cfg f st)).decrypt_calls := rfl
      _ = (App.appFrameStep cfg f st).decrypt_calls := hrec
      _ = st.decrypt_calls := hc

theorem processFrames_calls_edge (cfg : App.Cfg) :
    ∀ (frames : List App.AppFrame) (st : App.AppState),
      (∀ f ∈ frames, f.keyPresent = true ∧ f.decryptOk = true) →
      st.current_key_loaded = false →
      (App.appProcessFrames cfg frames st).decrypt_calls
        = st.decrypt_calls
          + (if frames.any (App.isGrantedFrame cfg) then 1 else 0)
  | [], st, _, _ => by simp [App.appProcessFrames]
  | f :: fs, st, hall, h => by
    obtain ⟨hkp, hdo⟩ := hall f (List.mem_cons_self f fs)
    obtain ⟨e1, e2, e3, e4, e5⟩ := appFrameStep_eqs cfg f st
    have hstep : App.appProcessFrames cfg (f :: fs) st
        = App.appProcessFrames cfg fs (App.appFrameStep cfg f st) := rfl
    cases hg : App.isGrantedFrame cfg f
    · have hc : (App.appFrameStep cfg f st).decrypt_calls = st.decrypt_calls := by
        rw [e2, hg]; simp
      have hk : (App.appFrameStep cfg f st).current_key_loaded = false := by
        rw [e3, h, hg]; simp
      have ih := processFrames_calls_edge cfg fs (App.appFrameStep cfg f st)
        (fun g hgm => hall g (List.mem_cons_of_mem f hgm)) hk
      rw [hstep, ih, hc, List.any_cons, hg]
      simp
    · have hc : (App.appFrameStep cfg f st).decrypt_calls = st.decrypt_calls + 1 := by
        rw [e2, hg, h]; simp
      have hk : (App.appFrameStep cfg f st).current_key_loaded = true := by
        rw [e3, h, hg, hkp, hdo]; simp
      have hrest := processFrames_calls_loaded cfg fs (App.appFrameStep cfg f st) hk
      rw [hstep, hrest, hc, List.any_cons, hg]
      simp

/-- C1 counterexample: with one enrolled encoding at 0, tolerance 1 and no
reference image, the single detected faceprint 10 matches nothing, yet with
the device "MacBook Pro Speakers" both monitor loops report the
speaker-device outcome (the spec's DEVICE_UNSAFE), not the unauthorized
(DENIED) one: the device check fires before, and without, an identity
match. -/
theorem claim1_counterexample :
    App.monitorAuthenticate cfg0 10 = false ∧
    App.monitorVerdict cfg0 [10] (App.get_audio_device_name (some devSpeakers))
      = App.AppVerdict.speakersDetected ∧
    App.AppVerdict.speakersDetected ≠ App.AppVerdict.unauthorized ∧
    MonitorPy.monitorPyVerdict mcfg0 [10]
      (MonitorPy.get_current_audio_device (some devSpeakers))
      = MonitorPy.MonVerdict.headphonesWarn := by
  refine ⟨by decide, by decide, by decide, by decide⟩

/-- C1 amended: in both per-frame deciders, with exactly one detected
faceprint the speaker-device check is evaluated before the identity match:
a device name containing "speaker" yields the device-unsafe outcome
regardless of whether any enrolled faceprint matches, and the denied
outcome arises only when the device is safe and no match exists. -/
theorem claim1_amended :
    (∀ (cfg : App.Cfg) (f : Faceprint) (dev : String),
      App.monitorVerdict cfg [f] dev
        = if strHasSub dev strSpeaker then App.AppVerdict.speakersDetected
          else if App.monitorAuthenticate cfg f then App.AppVerdict.granted
          else App.AppVerdict.unauthorized) ∧
    (∀ (cfg : MonitorPy.MonCfg) (f : Faceprint) (dev : String),
      MonitorPy.monitorPyVerdict cfg [f] dev
        = if strHasSub dev strSpeaker then MonitorPy.MonVerdict.headphonesWarn
          else if (compare_faces cfg.dist cfg.tol cfg.all_known_encodings
              f).contains true then MonitorPy.MonVerdict.authorizedUser
          else MonitorPy.MonVerdict.unauthorizedPerson) :=
  ⟨fun _ _ _ => rfl, fun _ _ _ => rfl⟩

/-- C2: after a monitor session ends (the loop exits either on a stop
request or on a frame-source failure, and cleanup runs in both cases), the
decrypted plaintext temp file, if one was recorded, no longer exists at
its prior path, provided each frame's candidate temp name was fresh. -/
theorem claim2_plaintext_cleanup (cfg : App.Cfg) (frames : List App.AppFrame)
    (fs0 : List Nat) (p : Nat)
    (hfresh : ∀ f ∈ frames, f.tmpPath ∉ fs0)
    (hp : (App.appMonitorSession cfg frames fs0).decrypted_temp_file = some p) :
    p ∉ (App.appMonitorSession cfg frames fs0).fs := by
  have hinit : SessionInv fs0 (App.appMonitorInit fs0) := Or.inl ⟨rfl, rfl, rfl⟩
  have hinv := sessionInv_process cfg frames (App.appMonitorInit fs0) fs0 hfresh hinit
  exact sessionEnd_safe fs0 _ p hinv hp

/-- C2 witness: a concrete session with one granted frame whose decryption
succeeds and writes path 7; after session end path 7 is gone. -/
theorem claim2_plaintext_cleanup_witness :
    7 ∉ (App.appMonitorSession cfg0 [grantedFr 7] []).fs :=
  claim2_plaintext_cleanup cfg0 [grantedFr 7] [] 7 (by decide) (by decide)

/-- C3: the pause flag after every monitor frame is re-derived from that
frame's verdict: any verdict other than granted leaves the audio paused,
and a granted verdict with the decryption already done (or succeeding now)
leaves it unpaused; the same continuous gate holds for the monitor.py
loop, where the flag after a frame is exactly the negation of that frame's
should_play. -/
theorem claim3_continuous_gate :
    (∀ (cfg : App.Cfg) (fr : App.AppFrame) (st : App.AppState),
      (App.appFrameStep cfg fr st).audio_paused
        = (if App.isGrantedFrame cfg fr then
             (if st.current_key_loaded || (fr.keyPresent && fr.decryptOk)
              then false else st.audio_paused)
           else true)) ∧
    (∀ (cfg : MonitorPy.MonCfg) (fr : MonitorPy.MonPyFrame)
        (st : MonitorPy.MonPyState),
      (MonitorPy.monitorPyStep cfg fr st).audio_is_paused
        = !MonitorPy.should_play
            (MonitorPy.monitorPyVerdict cfg fr.faces
              (MonitorPy.get_current_audio_device fr.devRaw))) := by
  constructor
  · intro cfg fr st
    exact (appFrameStep_eqs cfg fr st).1
  · intro cfg fr st
    obtain ⟨ms, mp⟩ := st
    simp only [MonitorPy.monitorPyStep]
    cases hv : MonitorPy.should_play (MonitorPy.monitorPyVerdict cfg fr.faces
        (MonitorPy.get_current_audio_device fr.devRaw)) <;>
      cases mp <;> simp [hv]

/-- C4 counterexample: a granted frame whose decryption fails leaves the
key-loaded flag unset, and the very next granted frame runs the decryption
body again (the ghost call counter reaches 2), refuting "never
re-attempted within the same session". -/
theorem claim4_counterexample :
    App.isGrantedFrame cfg0 failFr = true ∧
    App.isGrantedFrame cfg0 (grantedFr 2) = true ∧
    failFr.decryptOk = false ∧
    (App.appProcessFrames cfg0 [failFr] (App.appMonitorInit [])).current_key_loaded
      = false ∧
    (App.appProcessFrames cfg0 [failFr] (App.appMonitorInit [])).decrypt_calls
      = 1 ∧
    (App.appProcessFrames cfg0 [failFr, grantedFr 2]
      (App.appMonitorInit [])).decrypt_calls = 2 := by
  refine ⟨by decide, by decide, by decide, by decide, by decide, by decide⟩

/-- C4 amended: a failed decryption is reported but leaves
current_key_loaded unset, so the decryption body runs again on every
subsequent granted frame of the same session; only a success (which
latches the flag) stops further attempts. -/
theorem claim4_amended (cfg : App.Cfg) (fr : App.AppFrame) (st : App.AppState) :
    (App.appFrameStep cfg fr st).decrypt_calls
        = st.decrypt_calls
          + (if App.isGrantedFrame cfg fr && !st.current_key_loaded then 1
             else 0) ∧
    (App.appFrameStep cfg fr st).current_key_loaded
        = (st.current_key_loaded
           || (App.isGrantedFrame cfg fr && fr.keyPresent && fr.decryptOk)) := by
  obtain ⟨e1, e2, e3, e4, e5⟩ := appFrameStep_eqs cfg fr st
  exact ⟨e2, e3⟩

/-- C5: over any verdict sequence in one session in which decryption
succeeds when attempted, the decryption body runs exactly once when some
frame is granted and never otherwise; applied to every prefix of the
session this places the single run at the first granted frame. -/
theorem claim5_edge_trigger (cfg : App.Cfg) (frames : List App.AppFrame)
    (fs0 : List Nat)
    (hall : ∀ f ∈ frames, f.keyPresent = true ∧ f.decryptOk = true) :
    (App.appProcessFrames cfg frames (App.appMonitorInit fs0)).decrypt_calls
      = if frames.any (App.isGrantedFrame cfg) then 1 else 0 := by
  have h := processFrames_calls_edge cfg frames (App.appMonitorInit fs0) hall rfl
  simpa [App.appMonitorInit] using h

/-- C5 witness: the spec's sequence [GRANTED, GRANTED, DENIED, GRANTED]
triggers the decryption body exactly once. -/
theorem claim5_edge_trigger_witness :
    (App.appProcessFrames cfg0 edgeSeq (App.appMonitorInit [])).decrypt_calls
      = 1 := by
  have h := claim5_edge_trigger cfg0 edgeSeq [] (by decide)
  rw [h]; decide

/-- C6 counterexample: with an empty store and no reference image, a
single-face frame on a safe device yields the unauthorized (DENIED)
verdict, not a NO_PACKAGE one, and monitor.py with an absent store file
terminates the process at startup instead of staying alive. -/
theorem claim6_counterexample :
    App.monitorVerdict cfgEmpty [0] (App.get_audio_device_name (some devHeadphones))
      = App.AppVerdict.unauthorized ∧
    App.AppVerdict.unauthorized ≠ App.AppVerdict.noPackage ∧
    MonitorPy.monitorPyStartup true true DBFile.absent
      = Except.error PyErr.exitCall :=
  ⟨by decide, by decide, rfl⟩

/-- C6 amended: neither program has a NO_PACKAGE verdict.  In app.py an
empty store with no reference encoding makes every single-face frame
evaluate to speakers-detected or unauthorized (the session stays alive);
in monitor.py an absent store file exits the process at startup. -/
theorem claim6_amended :
    (∀ (d : Faceprint → Faceprint → ℤ) (tol : ℤ) (f : Faceprint) (dev : String),
      App.monitorVerdict
          { dist := d, tol := tol, allEncodings := [],
            referenceEncoding := none } [f] dev
        = if strHasSub dev strSpeaker then App.AppVerdict.speakersDetected
          else App.AppVerdict.unauthorized) ∧
    (∀ (a b : Bool),
      MonitorPy.monitorPyStartup a b DBFile.absent
        = Except.error PyErr.exitCall) := by
  constructor
  · intro d tol f dev
    rfl
  · intro a b
    cases a <;> cases b <;> rfl

/-- C7: evaluation of the enrollment flow at the failing script: one app
run in which an enrollment for Alice is abandoned after a single capture
and a fresh enrollment for Bob then completes.  Because start_enroll_mode
never clears temp_encodings, the commit stores four faceprints under Bob,
including Alice's abandoned capture, instead of exactly the three captured
in Bob's session. -/
theorem claim7_stale_captures :
    App.dbLookup (App.guiRun [] enrollScript).dbFile nameBob
      = some [1, 10, 11, 12] ∧
    (App.dbLookup (App.guiRun [] enrollScript).dbFile nameBob).map List.length
      = some 4 := by
  refine ⟨by decide, by decide⟩

/-- C8 counterexample: a store file whose unpickling raises a
non-EOFError exception makes enroll.py's loader propagate the exception,
and makes monitor.py's unguarded load raise out of the process; neither
degrades to the empty store. -/
theorem claim8_counterexample :
    Enroll.load_database DBFile.corruptOther
      = Except.error PyErr.uncaughtError ∧
    MonitorPy.monitorPyStartup true true DBFile.corruptOther
      = Except.error PyErr.uncaughtError :=
  ⟨rfl, rfl⟩

/-- C8 amended: only app.py's load_database degrades every failure to the
empty store; enroll.py's loader degrades absent files and EOFError only,
propagating any other unpickling exception; monitor.py loads with no
handler, so a corrupt file raises and an absent one exits. -/
theorem claim8_amended :
    App.load_database DBFile.absent = [] ∧
    App.load_database DBFile.corruptEOF = [] ∧
    App.load_database DBFile.corruptOther = [] ∧
    (∀ db : Store, App.load_database (DBFile.valid db) = db) ∧
    Enroll.load_database DBFile.absent = Except.ok [] ∧
    Enroll.load_database DBFile.corruptEOF = Except.ok [] ∧
    Enroll.load_database DBFile.corruptOther
      = Except.error PyErr.uncaughtError ∧
    MonitorPy.monitorPyStartup true true DBFile.corruptEOF
      = Except.error PyErr.uncaughtError ∧
    MonitorPy.monitorPyStartup true true DBFile.corruptOther
      = Except.error PyErr.uncaughtError :=
  ⟨rfl, rfl, rfl, fun _ => rfl, rfl, rfl, rfl, rfl, rfl⟩

/-- C9: monitor.py starts playback unpaused before any frame is handled
(the post-startup state has the music started and the paused flag clear,
for every configuration, store and device), and a run over a nonempty
frame list applies the first frame's step to exactly that audible
state. -/
theorem claim9_audible_startup :
    MonitorPy.monitorPyInit.audio_is_paused = false ∧
    MonitorPy.monitorPyInit.music_started = true ∧
    (∀ (cfg : MonitorPy.MonCfg), MonitorPy.monitorPyRun cfg []
      = MonitorPy.monitorPyInit) ∧
    (∀ (cfg : MonitorPy.MonCfg) (fr : MonitorPy.MonPyFrame)
        (rest : List MonitorPy.MonPyFrame),
      MonitorPy.monitorPyRun cfg (fr :: rest)
        = rest.foldl (fun s f => MonitorPy.monitorPyStep cfg f s)
            (MonitorPy.monitorPyStep cfg fr MonitorPy.monitorPyInit)) :=
  ⟨rfl, rfl, fun _ => rfl, fun _ _ _ => rfl⟩

/-- C10: in lock mode, a frame with several faces is handled exactly like
a frame containing only its first face, and the unlock signal fires iff
that first face is within tolerance of the reference encoding; there is no
multiple-face rejection. -/
theorem claim10_lock_first_face (dist : Faceprint → Faceprint → ℤ) (tol : ℤ)
    (r f0 : Faceprint) (rest : List Faceprint) :
    App.lockFrame dist tol (some r) (f0 :: rest)
        = App.lockFrame dist tol (some r) [f0] ∧
    (App.lockFrame dist tol (some r) (f0 :: rest)).2
        = decide (dist r f0 ≤ tol) := by
  constructor
  · rfl
  · by_cases h : dist r f0 ≤ tol <;>
      simp [App.lockFrame, compare_faces, h]
